import Mathlib

/-!
Verification of the Tello drone control repository.

The repository drives a DJI Tello quadcopter through a chain of adapters:
Mastra tool definitions (TypeScript) issue HTTP requests to a persistent
connection manager, which owns the single UDP session to the device.

Embedded here:
* the persistent connection manager's flight state machine and safety gates
  (the Python manager `tello_web_server.py` / `tello_connection_manager.py`
  is referenced by the tools and the READMEs but its source is not in the
  repository snapshot; those parts are modelled from the specification);
* `connectTello`, `executeCommand`, `telloBasicCommands`, `telloStatusTool`
  and `telloDisconnect` from `src/mastra/tools/tello-tool.ts`;
* `executeTelloManager` from `src/mastra/tools/tello-tools.ts`;
* `telloEmergency` from `mastra-tello-tools.ts`.
-/

/-- Session status of the single persistent connection (spec section 3). -/
inductive SessionStatus where
  | disconnected
  | connecting
  | connected
  | error
deriving DecidableEq, Repr

/-- Flight status tracked by the flight state machine (spec section 4.2). -/
inductive FlightStatus where
  | unknown
  | grounded
  | flying
  | emergency
deriving DecidableEq, Repr

/-- Error taxonomy of the manager (spec section 7). -/
inductive TelloError where
  | connectionError
  | illegalStateError
  | invalidParameterError
  | lowBatteryError
  | timeoutError
  | protocolError
  | deviceError
  | busy
deriving DecidableEq, Repr

/-- State owned by the connection manager: session status, flight status,
last known battery percentage and the time it was last updated. -/
structure ManagerState where
  session : SessionStatus
  flight : FlightStatus
  battery : Nat
  lastUpdated : Nat
deriving DecidableEq, Repr

/-- Freshness window (seconds) for a battery reading trusted by the
pre-takeoff gate (spec section 4.3: "e.g., 10s"). -/
def FRESHNESS_WINDOW : Nat := 10

/-- Minimum battery percentage required for takeoff. -/
def BATTERY_MIN : Nat := 20

/-- Minimum legal move distance in centimetres. -/
def DIST_MIN : Nat := 20

/-- Maximum legal move distance in centimetres. -/
def DIST_MAX : Nat := 500

/-- Minimum legal rotation in degrees. -/
def DEG_MIN : Nat := 1

/-- Maximum legal rotation in degrees. -/
def DEG_MAX : Nat := 360

/-- Movement directions accepted by the move endpoint. -/
inductive MoveDir where
  | up
  | down
  | left
  | right
  | forward
  | back
deriving DecidableEq, Repr

/-- Rotation directions accepted by the rotate endpoint. -/
inductive RotDir where
  | cw
  | ccw
deriving DecidableEq, Repr

/-- Wire text of a movement direction (codec, spec section 4.5). -/
def MoveDir.wire : MoveDir → String
  | .up => "up"
  | .down => "down"
  | .left => "left"
  | .right => "right"
  | .forward => "forward"
  | .back => "back"

/-- Wire text of a rotation direction. -/
def RotDir.wire : RotDir → String
  | .cw => "cw"
  | .ccw => "ccw"

/-- Wire command for a move, e.g. "forward 100". -/
def moveWire (d : MoveDir) (dist : Nat) : String :=
  d.wire ++ " " ++ toString dist

/-- Wire command for a rotation, e.g. "cw 90". -/
def rotateWire (d : RotDir) (deg : Nat) : String :=
  d.wire ++ " " ++ toString deg

/-- Outcome of one manager operation: the error if it failed, the manager
state afterwards, and the wire commands actually sent to the device. -/
structure Outcome where
  err : Option TelloError
  state : ManagerState
  sent : List String
deriving DecidableEq, Repr

/-- Modelled from the spec: the battery value used by the pre-takeoff gate.
The manager (`tello_web_server.py`, not in the snapshot) trusts the stored
reading only within the freshness window; otherwise it forces a fresh
query whose device answer is `db` (spec sections 3 and 4.3). -/
def gateBattery (s : ManagerState) (now db : Nat) : Nat :=
  if now - s.lastUpdated ≤ FRESHNESS_WINDOW then s.battery else db

/-- Modelled from the spec: device traffic of the forced battery query
(empty when the stored reading is fresh). -/
def gateQuery (s : ManagerState) (now : Nat) : List String :=
  if now - s.lastUpdated ≤ FRESHNESS_WINDOW then [] else ["battery?"]

/-- Modelled from the spec: manager state after the pre-takeoff battery
refresh (unchanged when the stored reading is fresh). -/
def gateState (s : ManagerState) (now db : Nat) : ManagerState :=
  if now - s.lastUpdated ≤ FRESHNESS_WINDOW then s
  else { s with battery := db, lastUpdated := now }

/-- Modelled from the spec: the manager's takeoff operation
(`tello_web_server.py` `/api/takeoff`, not in the snapshot; spec sections
4.2 and 4.3). Requires a connected session and the grounded state, then
gates on a fresh battery reading (forcing a query when stale); below 20%
it rejects with `lowBatteryError` and stays grounded, otherwise it sends
"takeoff" and, on device ack, transitions to flying. -/
def takeoffCmd (s : ManagerState) (now db : Nat) (ack : Bool) : Outcome :=
  if s.session = .connected then
    if s.flight = .grounded then
      if gateBattery s now db < BATTERY_MIN then
        ⟨some .lowBatteryError, gateState s now db, gateQuery s now⟩
      else if ack then
        ⟨none, { gateState s now db with flight := .flying },
          gateQuery s now ++ ["takeoff"]⟩
      else
        ⟨some .deviceError, gateState s now db, gateQuery s now ++ ["takeoff"]⟩
    else ⟨some .illegalStateError, s, []⟩
  else ⟨some .connectionError, s, []⟩

/-- Modelled from the spec: the manager's move operation
(`tello_web_server.py` `/api/move`, not in the snapshot; spec sections
4.2 and 4.3). The pure parameter gate runs before state-machine dispatch
(spec section 2 data flow); out-of-range distances are rejected, moves
outside the flying state are rejected with `illegalStateError`, and legal
moves are forwarded unclamped on the wire. -/
def moveCmd (s : ManagerState) (d : MoveDir) (dist : Nat) (ack : Bool) : Outcome :=
  if dist < DIST_MIN ∨ DIST_MAX < dist then ⟨some .invalidParameterError, s, []⟩
  else if s.session = .connected then
    if s.flight = .flying then
      if ack then ⟨none, s, [moveWire d dist]⟩
      else ⟨some .deviceError, s, [moveWire d dist]⟩
    else ⟨some .illegalStateError, s, []⟩
  else ⟨some .connectionError, s, []⟩

/-- Modelled from the spec: the manager's rotate operation
(`tello_web_server.py` `/api/rotate`, not in the snapshot; spec sections
4.2 and 4.3), analogous to the move operation with degrees in [1,360]. -/
def rotateCmd (s : ManagerState) (d : RotDir) (deg : Nat) (ack : Bool) : Outcome :=
  if deg < DEG_MIN ∨ DEG_MAX < deg then ⟨some .invalidParameterError, s, []⟩
  else if s.session = .connected then
    if s.flight = .flying then
      if ack then ⟨none, s, [rotateWire d deg]⟩
      else ⟨some .deviceError, s, [rotateWire d deg]⟩
    else ⟨some .illegalStateError, s, []⟩
  else ⟨some .connectionError, s, []⟩

/-- Modelled from the spec: the manager's emergency operation
(`tello_web_server.py` `/api/emergency`, not in the snapshot; spec
sections 4.2, 4.3 and 7). It bypasses every safety gate, is forwarded
immediately, and the local transition to the emergency state happens and
is reported as success whether or not the device ack arrives. -/
def emergencyCmd (s : ManagerState) (_ack : Bool) : Outcome :=
  if s.session = .connected then
    ⟨none, { s with flight := .emergency }, ["emergency"]⟩
  else ⟨some .connectionError, s, []⟩

/-- Module-level mutable state of `src/mastra/tools/tello-tool.ts`:
the `tello` instance variable (a handle, `none` when null) and the
`isConnected` flag. -/
structure ToolState where
  tello : Option Nat
  isConnected : Bool
deriving DecidableEq, Repr

/-- Result of one call to `connectTello`: whether it returned normally
(`ok = false` means it threw), the handle it returned, the module state
afterwards, and whether a `new Tello()` handshake was actually performed. -/
structure ConnectOutcome where
  ok : Bool
  handle : Option Nat
  state : ToolState
  handshake : Bool
deriving DecidableEq, Repr

/-- `connectTello` from `src/mastra/tools/tello-tool.ts` (lines 43-67).
When `tello` is set and `isConnected` holds, the body is skipped and the
cached instance is returned with no handshake. Otherwise a fresh instance
`h` is created and `tello.connect()` is attempted (its success is the
environment input `connectOk`); on failure `isConnected` is reset but the
fresh instance stays assigned to the module variable and the error is
rethrown. -/
def connectTello (s : ToolState) (connectOk : Bool) (h : Nat) : ConnectOutcome :=
  if s.tello.isSome && s.isConnected then
    ⟨true, s.tello, s, false⟩
  else if connectOk then
    ⟨true, some h, ⟨some h, true⟩, true⟩
  else
    ⟨false, none, ⟨some h, false⟩, true⟩

/-- How one device call inside `executeCommand` ends: success, an error
whose message mentions "connection" or "timeout" (which resets the module
state), or any other error. -/
inductive DeviceOutcome where
  | ok
  | errConn
  | errOther
deriving DecidableEq, Repr

/-- Result of a tool `execute` body from `tello-tool.ts`: the returned
success flag, the module state afterwards, the device calls that were
issued, and how many connect handshakes were attempted. -/
structure ExecOutcome where
  success : Bool
  state : ToolState
  deviceCalls : List String
  connectAttempts : Nat
deriving DecidableEq, Repr

/-- `telloBasicCommands.execute` from `src/mastra/tools/tello-tool.ts`
(lines 90-120), which is also the shape of the move/rotate/flip tools:
`await connectTello()` first — if that throws, the outer catch returns
`success: false` and the drone command is never issued. Otherwise the
single drone command `wire` runs through `executeCommand`, whose failure
(after resetting the module state for connection/timeout errors)
propagates to the outer catch as a `success: false` result. -/
def telloBasicCommand (s : ToolState) (connectOk : Bool) (h : Nat)
    (wire : String) (dev : DeviceOutcome) : ExecOutcome :=
  let c := connectTello s connectOk h
  let attempts := if c.handshake then 1 else 0
  if c.ok then
    match dev with
    | .ok => ⟨true, c.state, [wire], attempts⟩
    | .errConn => ⟨false, ⟨none, false⟩, [wire], attempts⟩
    | .errOther => ⟨false, c.state, [wire], attempts⟩
  else ⟨false, c.state, [], attempts⟩

/-- Result of `telloStatusTool.execute` from `tello-tool.ts`: the success
flag and the three formatted status fields. -/
structure StatusOutcome where
  success : Bool
  battery : String
  speed : String
  time : String
deriving DecidableEq, Repr

/-- Field formatting in `telloStatusTool`: a query result becomes its
numeric text with the unit suffix, a failed query becomes the
placeholder "N/A". -/
def statusField (r : Option Nat) (unit : String) : String :=
  match r with
  | some v => toString v ++ unit
  | none => "N/A"

/-- `telloStatusTool.execute` from `src/mastra/tools/tello-tool.ts`
(lines 208-259). After `connectTello` succeeds, the battery, speed and
flight-time queries each run in their own try/catch: a query that throws
is replaced by the "N/A" placeholder and the overall result is still
`success: true`. Only a `connectTello` failure reaches the outer catch
and yields `success: false`. The inputs `bat`, `spd`, `tim` are the
device answers, `none` meaning the call threw. -/
def telloStatusExec (s : ToolState) (connectOk : Bool) (h : Nat)
    (bat spd tim : Option Nat) : StatusOutcome :=
  if (connectTello s connectOk h).ok then
    ⟨true, statusField bat "%", statusField spd "cm/s", statusField tim "s"⟩
  else ⟨false, "", "", ""⟩

/-- Result of `telloDisconnect.execute`: success flag and module state. -/
structure DisconnectOutcome where
  success : Bool
  state : ToolState
deriving DecidableEq, Repr

/-- `telloDisconnect.execute` from `src/mastra/tools/tello-tool.ts`
(lines 262-290). Only when `tello` is set and `isConnected` holds does it
call `tello.disconnect()` (throwing is the input `devThrows`): on success
it clears both and returns success, on a throw the outer catch clears
both and returns failure. Otherwise it returns success ("already
disconnected") leaving the module state untouched. -/
def telloDisconnectExec (s : ToolState) (devThrows : Bool) : DisconnectOutcome :=
  if s.tello.isSome && s.isConnected then
    if devThrows then ⟨false, ⟨none, false⟩⟩
    else ⟨true, ⟨none, false⟩⟩
  else ⟨true, s⟩

/-- Body the manager's HTTP endpoint returned to `telloEmergency`
(its parsed JSON), of which only the success flag matters here. -/
structure HttpResult where
  success : Bool
deriving DecidableEq, Repr

/-- `telloEmergency.execute` from `mastra-tello-tools.ts` (lines 201-229):
when the fetch and JSON parse complete (`fetched = some r`), it returns
`success: true` without ever inspecting `r.success`; only a thrown
fetch/parse error yields `success: false`. -/
def telloEmergencyExec (fetched : Option HttpResult) : Bool :=
  match fetched with
  | some _ => true
  | none => false

/-- An HTTP request assembled by `executeTelloManager`. -/
structure FetchRequest where
  url : String
  method : String
  hasBody : Bool
deriving DecidableEq, Repr

/-- Movement command strings recognized by `executeTelloManager`. -/
def moveCommands : List String := ["up", "down", "left", "right", "forward", "back"]

/-- Rotation command strings recognized by `executeTelloManager`. -/
def rotateCommands : List String := ["cw", "ccw"]

/-- Request assembly of `executeTelloManager` from
`src/mastra/tools/tello-tools.ts` (lines 5-91). `url` starts as the empty
string and `method` as "GET"; the switch fills them in per action, the
`execute` case dispatching further on the command string. A command
string outside the recognized set leaves `url` and `method` at their
initial values and still falls through to the fetch (`.ok`); only an
unknown action hits the `default` branch and throws (`.error`). -/
def buildTelloRequest (action : String) (command : Option String) :
    Except String FetchRequest :=
  if action = "connect" then .ok ⟨"http://localhost:8080/api/connect", "POST", false⟩
  else if action = "disconnect" then .ok ⟨"http://localhost:8080/api/disconnect", "POST", false⟩
  else if action = "status" then .ok ⟨"http://localhost:8080/api/status", "GET", false⟩
  else if action = "reset_status" then .ok ⟨"http://localhost:8080/api/reset_status", "POST", false⟩
  else if action = "start_video" then .ok ⟨"http://localhost:8080/api/video/start", "POST", false⟩
  else if action = "stop_video" then .ok ⟨"http://localhost:8080/api/video/stop", "POST", false⟩
  else if action = "get_video_frame" then .ok ⟨"http://localhost:8080/api/video/frame", "GET", false⟩
  else if action = "execute" then
    if command = some "takeoff" then .ok ⟨"http://localhost:8080/api/takeoff", "POST", false⟩
    else if command = some "land" then .ok ⟨"http://localhost:8080/api/land", "POST", false⟩
    else if command = some "emergency" then .ok ⟨"http://localhost:8080/api/emergency", "POST", false⟩
    else if command.getD "" ∈ moveCommands then .ok ⟨"http://localhost:8080/api/move", "POST", true⟩
    else if command.getD "" ∈ rotateCommands then .ok ⟨"http://localhost:8080/api/rotate", "POST", true⟩
    else .ok ⟨"", "GET", false⟩
  else .error ("Unknown action: " ++ action)

/-- Command strings the `execute` action of `executeTelloManager`
recognizes and routes to a real endpoint. -/
def recognizedExecuteCommands : List String :=
  ["takeoff", "land", "emergency"] ++ moveCommands ++ rotateCommands

/-- Claim C1: a Takeoff issued while Grounded and Connected with a fresh
battery reading below 20% is rejected with `lowBatteryError` and the
flight state stays grounded; with battery at least 20% it succeeds (on
device ack) and the flight state becomes flying. -/
theorem takeoff_battery_gate (s : ManagerState) (now db : Nat) (ack : Bool)
    (hs : s.session = .connected) (hf : s.flight = .grounded)
    (hfresh : now - s.lastUpdated ≤ FRESHNESS_WINDOW) :
    (s.battery < BATTERY_MIN →
      (takeoffCmd s now db ack).err = some .lowBatteryError ∧
      (takeoffCmd s now db ack).state.flight = .grounded) ∧
    (BATTERY_MIN ≤ s.battery → ack = true →
      (takeoffCmd s now db ack).err = none ∧
      (takeoffCmd s now db ack).state.flight = .flying) := by
  constructor
  · intro hb
    simp [takeoffCmd, gateBattery, gateState, gateQuery, hs, hf, hfresh, hb]
  · intro hb hack
    have hb' : ¬ gateBattery s now db < BATTERY_MIN := by
      unfold gateBattery
      rw [if_pos hfresh]
      omega
    simp [takeoffCmd, gateState, gateQuery, hs, hf, hfresh, hb', hack]

/-- Witness for the takeoff battery gate at battery 15 (rejected, stays
grounded) and battery 45 (succeeds, flying), both with a fresh reading. -/
theorem takeoff_battery_gate_witness :
    ((takeoffCmd ⟨.connected, .grounded, 15, 0⟩ 5 15 true).err = some .lowBatteryError ∧
     (takeoffCmd ⟨.connected, .grounded, 15, 0⟩ 5 15 true).state.flight = .grounded) ∧
    ((takeoffCmd ⟨.connected, .grounded, 45, 0⟩ 5 45 true).err = none ∧
     (takeoffCmd ⟨.connected, .grounded, 45, 0⟩ 5 45 true).state.flight = .flying) :=
  ⟨(takeoff_battery_gate ⟨.connected, .grounded, 15, 0⟩ 5 15 true rfl rfl (by decide)).1
      (by decide),
   (takeoff_battery_gate ⟨.connected, .grounded, 45, 0⟩ 5 45 true rfl rfl (by decide)).2
      (by decide) rfl⟩

/-- Claim C2: a Move or Rotate issued while the flight state is grounded
(with in-range parameters, so that the prior pure parameter gate does not
fire first) is rejected with `illegalStateError` and no wire command is
sent to the device. -/
theorem grounded_move_rotate_rejected (s : ManagerState) (d : MoveDir) (r : RotDir)
    (dist deg : Nat) (ack : Bool)
    (hs : s.session = .connected) (hf : s.flight = .grounded)
    (hdist : DIST_MIN ≤ dist ∧ dist ≤ DIST_MAX)
    (hdeg : DEG_MIN ≤ deg ∧ deg ≤ DEG_MAX) :
    (moveCmd s d dist ack).err = some .illegalStateError ∧
    (moveCmd s d dist ack).sent = [] ∧
    (rotateCmd s r deg ack).err = some .illegalStateError ∧
    (rotateCmd s r deg ack).sent = [] := by
  have h1 : ¬ (dist < DIST_MIN ∨ DIST_MAX < dist) := by
    unfold DIST_MIN DIST_MAX at *
    omega
  have h2 : ¬ (deg < DEG_MIN ∨ DEG_MAX < deg) := by
    unfold DEG_MIN DEG_MAX at *
    omega
  simp [moveCmd, rotateCmd, h1, h2, hs, hf]

/-- Witness for the grounded rejection with move forward 100 and
rotate cw 90 from the grounded state. -/
theorem grounded_move_rotate_rejected_witness :
    (moveCmd ⟨.connected, .grounded, 50, 0⟩ .forward 100 true).err = some .illegalStateError ∧
    (moveCmd ⟨.connected, .grounded, 50, 0⟩ .forward 100 true).sent = [] ∧
    (rotateCmd ⟨.connected, .grounded, 50, 0⟩ .cw 90 true).err = some .illegalStateError ∧
    (rotateCmd ⟨.connected, .grounded, 50, 0⟩ .cw 90 true).sent = [] :=
  grounded_move_rotate_rejected ⟨.connected, .grounded, 50, 0⟩ .forward .cw 100 90 true
    rfl rfl (by decide) (by decide)

/-- Claim C3: a Move with distance outside [20,500] cm is rejected with
`invalidParameterError` and nothing reaches the device; an in-range Move
(issued while flying and connected) is forwarded on the wire with its
distance unclamped. -/
theorem move_range_enforced (s : ManagerState) (d : MoveDir) (dist : Nat) (ack : Bool) :
    (dist < DIST_MIN ∨ DIST_MAX < dist →
      (moveCmd s d dist ack).err = some .invalidParameterError ∧
      (moveCmd s d dist ack).sent = []) ∧
    (DIST_MIN ≤ dist → dist ≤ DIST_MAX → s.session = .connected → s.flight = .flying →
      moveWire d dist ∈ (moveCmd s d dist ack).sent) := by
  constructor
  · intro hout
    unfold moveCmd
    rw [if_pos hout]
    exact ⟨rfl, rfl⟩
  · intro hlo hhi hs hf
    have hno : ¬ (dist < DIST_MIN ∨ DIST_MAX < dist) := by omega
    unfold moveCmd
    rw [if_neg hno, if_pos hs, if_pos hf]
    cases ack <;> simp

/-- Witness for the move range gate at distance 700 (rejected, no
traffic) and distance 100 (forwarded as "forward 100") while flying. -/
theorem move_range_enforced_witness :
    ((moveCmd ⟨.connected, .flying, 50, 0⟩ .left 700 true).err = some .invalidParameterError ∧
     (moveCmd ⟨.connected, .flying, 50, 0⟩ .left 700 true).sent = []) ∧
    moveWire .forward 100 ∈ (moveCmd ⟨.connected, .flying, 50, 0⟩ .forward 100 true).sent :=
  ⟨(move_range_enforced ⟨.connected, .flying, 50, 0⟩ .left 700 true).1 (by decide),
   (move_range_enforced ⟨.connected, .flying, 50, 0⟩ .forward 100 true).2
     (by decide) (by decide) rfl rfl⟩

/-- Claim C4: a Rotate with degrees outside [1,360] is rejected with
`invalidParameterError` and the device-dispatch branch is unreachable
(no wire traffic); an in-range Rotate (issued while flying and connected)
is forwarded on the wire. -/
theorem rotate_range_enforced (s : ManagerState) (d : RotDir) (deg : Nat) (ack : Bool) :
    (deg < DEG_MIN ∨ DEG_MAX < deg →
      (rotateCmd s d deg ack).err = some .invalidParameterError ∧
      (rotateCmd s d deg ack).sent = []) ∧
    (DEG_MIN ≤ deg → deg ≤ DEG_MAX → s.session = .connected → s.flight = .flying →
      rotateWire d deg ∈ (rotateCmd s d deg ack).sent) := by
  constructor
  · intro hout
    unfold rotateCmd
    rw [if_pos hout]
    exact ⟨rfl, rfl⟩
  · intro hlo hhi hs hf
    have hno : ¬ (deg < DEG_MIN ∨ DEG_MAX < deg) := by omega
    unfold rotateCmd
    rw [if_neg hno, if_pos hs, if_pos hf]
    cases ack <;> simp

/-- Witness for the rotate range gate at 500 degrees (rejected, no
traffic) and 90 degrees (forwarded as "cw 90") while flying. -/
theorem rotate_range_enforced_witness :
    ((rotateCmd ⟨.connected, .flying, 50, 0⟩ .ccw 500 true).err = some .invalidParameterError ∧
     (rotateCmd ⟨.connected, .flying, 50, 0⟩ .ccw 500 true).sent = []) ∧
    rotateWire .cw 90 ∈ (rotateCmd ⟨.connected, .flying, 50, 0⟩ .cw 90 true).sent :=
  ⟨(rotate_range_enforced ⟨.connected, .flying, 50, 0⟩ .ccw 500 true).1 (by decide),
   (rotate_range_enforced ⟨.connected, .flying, 50, 0⟩ .cw 90 true).2
     (by decide) (by decide) rfl rfl⟩

/-- Claim C5: an Emergency in any connected state bypasses every safety
gate, is forwarded immediately as "emergency", transitions the local
flight state to emergency and reports success regardless of the device
ack; and the `telloEmergency` tool layer likewise reports success for any
response body it manages to parse, never inspecting its success flag. -/
theorem emergency_bypass (s : ManagerState) (ack : Bool) (r : HttpResult)
    (hs : s.session = .connected) :
    (emergencyCmd s ack).err = none ∧
    (emergencyCmd s ack).state.flight = .emergency ∧
    (emergencyCmd s ack).sent = ["emergency"] ∧
    telloEmergencyExec (some r) = true := by
  unfold emergencyCmd
  rw [if_pos hs]
  exact ⟨rfl, rfl, rfl, rfl⟩

/-- Witness for the emergency bypass: flying at 5% battery with the ack
lost and a failure response body, emergency still succeeds locally. -/
theorem emergency_bypass_witness :
    (emergencyCmd ⟨.connected, .flying, 5, 0⟩ false).err = none ∧
    (emergencyCmd ⟨.connected, .flying, 5, 0⟩ false).state.flight = .emergency ∧
    (emergencyCmd ⟨.connected, .flying, 5, 0⟩ false).sent = ["emergency"] ∧
    telloEmergencyExec (some ⟨false⟩) = true :=
  emergency_bypass ⟨.connected, .flying, 5, 0⟩ false ⟨false⟩ rfl

/-- Claim C6: after a `connectTello` call that returned normally, a
second call without an intervening disconnect performs no handshake,
leaves the module state unchanged and returns the cached instance. -/
theorem connect_idempotent (s : ToolState) (ok1 ok2 : Bool) (h1 h2 : Nat)
    (hfirst : (connectTello s ok1 h1).ok = true) :
    (connectTello (connectTello s ok1 h1).state ok2 h2).handshake = false ∧
    (connectTello (connectTello s ok1 h1).state ok2 h2).state =
      (connectTello s ok1 h1).state ∧
    (connectTello (connectTello s ok1 h1).state ok2 h2).handle =
      (connectTello s ok1 h1).state.tello := by
  have hb2 : ((connectTello s ok1 h1).state.tello.isSome &&
      (connectTello s ok1 h1).state.isConnected) = true := by
    unfold connectTello at hfirst ⊢
    by_cases hb : (s.tello.isSome && s.isConnected) = true
    · rw [if_pos hb]
      exact hb
    · rw [if_neg hb] at hfirst ⊢
      cases ok1 with
      | true => simp
      | false => simp at hfirst
  set t := (connectTello s ok1 h1).state with ht
  have hskip : connectTello t ok2 h2 = ⟨true, t.tello, t, false⟩ := by
    unfold connectTello
    rw [if_pos hb2]
  rw [hskip]
  exact ⟨rfl, rfl, rfl⟩

/-- Witness for connect idempotency: a successful first connect from the
fresh state, then a second call. -/
theorem connect_idempotent_witness :
    (connectTello (connectTello ⟨none, false⟩ true 1).state true 2).handshake = false ∧
    (connectTello (connectTello ⟨none, false⟩ true 1).state true 2).state =
      (connectTello ⟨none, false⟩ true 1).state ∧
    (connectTello (connectTello ⟨none, false⟩ true 1).state true 2).handle =
      (connectTello ⟨none, false⟩ true 1).state.tello :=
  connect_idempotent ⟨none, false⟩ true true 1 2 rfl

/-- Claim C7: a non-connect command issued while the session is not
connected makes exactly one connect attempt, and when that attempt fails
its error propagates to the caller as a failure result while the drone
command itself is never issued. -/
theorem ensure_connected_before_command (s : ToolState) (h : Nat) (wire : String)
    (dev : DeviceOutcome) (hnc : s.isConnected = false) :
    (telloBasicCommand s true h wire dev).connectAttempts = 1 ∧
    (telloBasicCommand s false h wire dev).connectAttempts = 1 ∧
    (telloBasicCommand s false h wire dev).success = false ∧
    (telloBasicCommand s false h wire dev).deviceCalls = [] := by
  cases dev <;> simp [telloBasicCommand, connectTello, hnc]

/-- Witness for the implicit connect: starting fully disconnected, a
takeoff attempt whose connect fails. -/
theorem ensure_connected_before_command_witness :
    (telloBasicCommand ⟨none, false⟩ true 7 "takeoff" .ok).connectAttempts = 1 ∧
    (telloBasicCommand ⟨none, false⟩ false 7 "takeoff" .ok).connectAttempts = 1 ∧
    (telloBasicCommand ⟨none, false⟩ false 7 "takeoff" .ok).success = false ∧
    (telloBasicCommand ⟨none, false⟩ false 7 "takeoff" .ok).deviceCalls = [] :=
  ensure_connected_before_command ⟨none, false⟩ 7 "takeoff" .ok rfl

/-- Counterexample to claim C8 as stated: after a failed connect the
module holds a fresh instance with `isConnected` false; a disconnect from
that state reports success but leaves the handle assigned, so the
connection handle is not released from every prior state. -/
theorem disconnect_releases_handle_cex :
    (connectTello ⟨none, false⟩ false 0).state = ⟨some 0, false⟩ ∧
    (telloDisconnectExec ⟨some 0, false⟩ false).success = true ∧
    (telloDisconnectExec ⟨some 0, false⟩ false).state.tello ≠ none := by
  refine ⟨rfl, rfl, ?_⟩
  intro h
  simp [telloDisconnectExec] at h

/-- Claim C8 (amended): disconnect is idempotent and best-effort on the
reachable states (where `isConnected` implies a handle is held): if the
session is marked connected the handle is released and the status becomes
disconnected even when the device call throws; after any call the status
is disconnected, and a second disconnect succeeds without changing the
state — but a handle retained from a failed connect while already marked
disconnected is not cleared. -/
theorem disconnect_idempotent (s : ToolState) (d1 d2 : Bool)
    (hinv : s.isConnected = true → s.tello.isSome = true) :
    (telloDisconnectExec s d1).state.isConnected = false ∧
    (s.isConnected = true → (telloDisconnectExec s d1).state.tello = none) ∧
    (telloDisconnectExec (telloDisconnectExec s d1).state d2).success = true ∧
    (telloDisconnectExec (telloDisconnectExec s d1).state d2).state =
      (telloDisconnectExec s d1).state := by
  by_cases hc : s.isConnected = true
  · have hsome := hinv hc
    have hb : (s.tello.isSome && s.isConnected) = true := by
      rw [hsome, hc]
      rfl
    cases d1 <;> cases d2 <;> simp [telloDisconnectExec, hb]
  · have hc' : s.isConnected = false := by
      cases hfl : s.isConnected
      · rfl
      · exact absurd hfl hc
    have hb : (s.tello.isSome && s.isConnected) = false := by
      rw [hc']
      simp
    cases d1 <;> cases d2 <;> simp [telloDisconnectExec, hb, hc']

/-- Witness for the amended disconnect property: connected with a handle,
device disconnect throws, then a second disconnect. -/
theorem disconnect_idempotent_witness :
    (telloDisconnectExec ⟨some 1, true⟩ true).state.isConnected = false ∧
    ((⟨some 1, true⟩ : ToolState).isConnected = true →
      (telloDisconnectExec ⟨some 1, true⟩ true).state.tello = none) ∧
    (telloDisconnectExec (telloDisconnectExec ⟨some 1, true⟩ true).state false).success = true ∧
    (telloDisconnectExec (telloDisconnectExec ⟨some 1, true⟩ true).state false).state =
      (telloDisconnectExec ⟨some 1, true⟩ true).state :=
  disconnect_idempotent ⟨some 1, true⟩ true false (fun _ => rfl)

/-- Counterexample to claim C9 as stated: in the status operation a
failing battery query is swallowed — the result still reports
`success = true` and carries the placeholder "N/A" instead of surfacing
the failure. -/
theorem status_swallows_error_cex :
    (telloStatusExec ⟨some 1, true⟩ true 1 none (some 10) (some 5)).success = true ∧
    (telloStatusExec ⟨some 1, true⟩ true 1 none (some 10) (some 5)).battery = "N/A" :=
  ⟨rfl, rfl⟩

/-- Claim C9 (amended): device-call failures in the basic flight commands
surface as `success = false`, and a connect failure in the status
operation surfaces as `success = false`; but failures of the individual
battery/speed/time queries inside the status operation are caught and
replaced by the "N/A" placeholder in a `success = true` result. -/
theorem error_surfacing (s : ToolState) (h : Nat) (wire : String)
    (dev : DeviceOutcome) (bat spd tim : Option Nat)
    (hdev : dev ≠ .ok) (hnc : s.isConnected = false) :
    (telloBasicCommand s true h wire dev).success = false ∧
    (telloStatusExec s false h bat spd tim).success = false ∧
    (telloStatusExec s true h none spd tim).success = true ∧
    (telloStatusExec s true h none spd tim).battery = "N/A" := by
  refine ⟨?_, ?_, ?_, ?_⟩
  · cases dev with
    | ok => exact absurd rfl hdev
    | errConn => simp [telloBasicCommand, connectTello, hnc]
    | errOther => simp [telloBasicCommand, connectTello, hnc]
  · simp [telloStatusExec, connectTello, hnc]
  · simp [telloStatusExec, connectTello, hnc]
  · simp [telloStatusExec, connectTello, hnc, statusField]

/-- Witness for the amended error-surfacing property from the fresh
disconnected state with a failing land command. -/
theorem error_surfacing_witness :
    (telloBasicCommand ⟨none, false⟩ true 3 "land" .errOther).success = false ∧
    (telloStatusExec ⟨none, false⟩ false 3 (some 50) (some 10) (some 5)).success = false ∧
    (telloStatusExec ⟨none, false⟩ true 3 none (some 10) (some 5)).success = true ∧
    (telloStatusExec ⟨none, false⟩ true 3 none (some 10) (some 5)).battery = "N/A" :=
  error_surfacing ⟨none, false⟩ 3 "land" .errOther (some 50) (some 10) (some 5)
    (by decide) rfl

/-- Claim C10: the `execute` action with a command string outside the
recognized set does not throw the "Unknown action" error — the request is
assembled with the url left as the empty string and the "GET" default
method, and the fetch is still attempted (the result is `.ok`, not the
`.error` of the default branch). -/
theorem execute_unknown_command_falls_through (cmd : String)
    (hcmd : cmd ∉ recognizedExecuteCommands) :
    buildTelloRequest "execute" (some cmd) = .ok ⟨"", "GET", false⟩ := by
  have h1 : cmd ≠ "takeoff" := fun e => hcmd (by rw [e]; decide)
  have h2 : cmd ≠ "land" := fun e => hcmd (by rw [e]; decide)
  have h3 : cmd ≠ "emergency" := fun e => hcmd (by rw [e]; decide)
  have hmv : cmd ∉ moveCommands := fun e => hcmd (by
    unfold recognizedExecuteCommands
    exact List.mem_append_left _ (List.mem_append_right _ e))
  have hrot : cmd ∉ rotateCommands := fun e => hcmd (by
    unfold recognizedExecuteCommands
    exact List.mem_append_right _ e)
  unfold buildTelloRequest
  rw [if_neg (by decide), if_neg (by decide), if_neg (by decide), if_neg (by decide),
    if_neg (by decide), if_neg (by decide), if_neg (by decide), if_pos rfl,
    if_neg (by simpa using h1), if_neg (by simpa using h2), if_neg (by simpa using h3),
    if_neg (by simpa using hmv), if_neg (by simpa using hrot)]

/-- Witness for the fall-through: the unrecognized command "flip". -/
theorem execute_unknown_command_falls_through_witness :
    buildTelloRequest "execute" (some "flip") = .ok ⟨"", "GET", false⟩ :=
  execute_unknown_command_falls_through "flip" (by decide)
